import Mathlib

/-!
Verification of the qcli / pyqi parameter-to-CLI-option binding and invocation
pipeline, as a shallow embedding of `src/pyqi/core/interface.py` and
`src/qcli/interface/cli.py`.  Python values that flow through the pipeline are
modelled by `PyVal`; Python dictionaries keyed by strings are association
lists; functions that raise exceptions return `Except String` (the message) or
a dedicated outcome constructor.  `IncompetentDeveloperError` plays the role of
the configuration error, exactly as in the source.
-/

/-- Python runtime value flowing through the pipeline: the values stored in an
optparse `Values.__dict__`, option defaults, and command results.  `none` is
the Python `None` object. -/
inductive PyVal where
  | none
  | str (s : String)
  | int (n : Int)
  | bool (b : Bool)
deriving DecidableEq

/-- Python dictionary with string keys, as an ordered association list. -/
abbrev PyDict := List (String × PyVal)

/-- Assignment `d[k] = v` on a Python dictionary: replace the value of an
existing key in place, or append a fresh key at the end. -/
def alistSet {β : Type} : List (String × β) → String → β → List (String × β)
  | [], k, v => [(k, v)]
  | (k2, v2) :: rest, k, v =>
    if k2 = k then (k, v) :: rest else (k2, v2) :: alistSet rest k v

/-- Model of Python `str.replace(a, b)` for single-character patterns. -/
def charReplace (a b : Char) (s : String) : String :=
  String.mk (s.data.map (fun c => if c = a then b else c))

/-- Name mangling `name.replace('_', '-')` used by `InterfaceOption.__init__`. -/
def underscoreToDash (s : String) : String := charReplace '_' '-' s

/-- The optparse `dest` of a long option: the long name with dashes replaced
by underscores (`'input-path'` becomes `'input_path'`). -/
def dashToUnderscore (s : String) : String := charReplace '-' '_' s

/-- Model of Python `str.upper` (ASCII). -/
def pyUpper (s : String) : String := String.mk (s.data.map Char.toUpper)

/-- Model of Python `str.strip(c)`: drop the character from both ends. -/
def pyStripChar (c : Char) (s : String) : String :=
  String.mk (((s.data.dropWhile (· == c)).reverse.dropWhile (· == c)).reverse)

/-- ASCII whitespace recognised by Python `str.strip()`. -/
def isPyWs (c : Char) : Bool :=
  c == ' ' || c == '\t' || c == '\n' || c == '\r' || c == '\x0b' || c == '\x0c'

/-- Model of Python `str.strip()` with no argument: strip whitespace. -/
def pyStripWs (s : String) : String :=
  String.mk (((s.data.dropWhile isPyWs).reverse.dropWhile isPyWs).reverse)

/-- Model of Python `sep.join(items)`. -/
def joinSep (sep : String) : List String → String
  | [] => ""
  | [x] => x
  | x :: y :: xs => x ++ sep ++ joinSep sep (y :: xs)

/-- Check whether a fallible construction succeeded (no exception escaped). -/
def exceptIsOk {ε α : Type} : Except ε α → Bool
  | .ok _ => true
  | .error _ => false

/-!
Embedding of `src/pyqi/core/interface.py`.
-/

/-- Modelled from the spec: the pyqi `Parameter` class itself lives outside
the provided sources; per section 3 of the spec it is a pure value object
`{name, type, help, required, default, default_description}`.  The fields kept
here are exactly the attributes `interface.py` reads from it (`Name`,
`Description`, `Required`, `Default`, `DefaultDescription`); the semantic type
tag is never consulted by the interface layer and is omitted. -/
structure PyqiParameter where
  Name : String
  Description : String
  Required : Bool
  Default : PyVal
  DefaultDescription : Option String
deriving DecidableEq

/-- Result of `InterfaceOption.__init__`: the attributes stored on a
successfully constructed option.  `InputHandler` is an opaque callable that
the pyqi core stores but never invokes; it is modelled by an identifier. -/
structure InterfaceOption where
  Parameter : Option PyqiParameter
  Name : String
  Help : String
  Required : Bool
  Default : PyVal
  DefaultDescription : Option String
  InputType : Option String
  InputAction : Option String
  InputHandler : Option String
  ShortName : Option String

/-- Requiredness merge of `InterfaceOption.__init__` (lines 152 and 166-169):
without a parameter the override is used as is; with a parameter, a required
parameter always yields a required option, and an optional parameter combined
with a `Required=True` override yields a required option. -/
def mergedRequired : Option PyqiParameter → Bool → Bool
  | Option.none, r => r
  | Option.some p, r => if !p.Required && r then true else p.Required

/-- Default merge of `InterfaceOption.__init__` (lines 153 and 159): the
parameter default is inherited unless the override is non-`None`. -/
def mergedDefault : Option PyqiParameter → PyVal → PyVal
  | Option.none, d => d
  | Option.some p, d => if d = PyVal.none then p.Default else d

/-- Rendering of a `PyVal` inside Python `%s` interpolation. -/
def PyVal.render : PyVal → String
  | PyVal.none => "None"
  | PyVal.str s => s
  | PyVal.int n => toString n
  | PyVal.bool b => if b then "True" else "False"

/-- Common tail of `InterfaceOption.__init__` (lines 171-185): store the
conversion metadata, convert the name to dashed form when requested, and
reject a required option carrying a non-`None` default.  The abstract
`_validate_option` hook, which concrete subclasses override, follows the
check in the source and is outside this core. -/
def InterfaceOption.finish (Parameter : Option PyqiParameter)
    (InputType InputAction InputHandler ShortName : Option String)
    (nm hp : String) (rq : Bool) (df : PyVal) (dd : Option String)
    (convert_to_dashed_name : Bool) : Except String InterfaceOption :=
  let nm2 := if convert_to_dashed_name then underscoreToDash nm else nm
  if rq ∧ df ≠ PyVal.none then
    Except.error ("Found required option \x27" ++ nm2 ++ "\x27 with default value \x27"
      ++ df.render ++ "\x27. Required options cannot have default values.")
  else
    Except.ok
      { Parameter := Parameter, Name := nm2, Help := hp, Required := rq,
        Default := df, DefaultDescription := dd, InputType := InputType,
        InputAction := InputAction, InputHandler := InputHandler,
        ShortName := ShortName }

/-- Embedding of `InterfaceOption.__init__` (interface.py lines 135-185), with
the source default values supplied by the caller (`Parameter=None`,
`Required=False`, `Default=None`, `convert_to_dashed_name=True`).  Construction
either raises `IncompetentDeveloperError` (the `Except.error` branch) or
returns the constructed option. -/
def InterfaceOption.mk? (Parameter : Option PyqiParameter)
    (InputType InputAction InputHandler ShortName Name : Option String)
    (Required : Bool) (Help : Option String) (Default : PyVal)
    (DefaultDescription : Option String) (convert_to_dashed_name : Bool) :
    Except String InterfaceOption :=
  match Parameter with
  | Option.none =>
    match Name with
    | Option.none =>
      Except.error ("Must specify a Name for the InterfaceOption since it "
        ++ "does not have a Parameter.")
    | Option.some nm =>
      match Help with
      | Option.none =>
        Except.error ("Must specify Help for the InterfaceOption since it "
          ++ "does not have a Parameter.")
      | Option.some hp =>
        InterfaceOption.finish Option.none InputType InputAction InputHandler
          ShortName nm hp (mergedRequired Option.none Required)
          (mergedDefault Option.none Default) DefaultDescription
          convert_to_dashed_name
  | Option.some p =>
    InterfaceOption.finish (Option.some p) InputType InputAction InputHandler
      ShortName (Name.getD p.Name) (Help.getD p.Description)
      (mergedRequired (Option.some p) Required)
      (mergedDefault (Option.some p) Default)
      (DefaultDescription.or p.DefaultDescription) convert_to_dashed_name

/-- Embedding of `InterfaceOption.getParameterName` (lines 191-195). -/
def InterfaceOption.getParameterName (o : InterfaceOption) : Option String :=
  o.Parameter.map PyqiParameter.Name

/-- Embedding of a pyqi `InterfaceUsageExample` (lines 211-222); the abstract
per-example validation hook is subclass specific and outside this core. -/
structure InterfaceUsageExample where
  ShortDesc : String
  LongDesc : String
  Ex : String

/-- Embedding of a pyqi `InterfaceResult` (lines 197-209); the output handler
callable is opaque to the core and modelled by an identifier. -/
structure InterfaceResult where
  ResultKey : String
  OutputHandler : String
  OptionName : Option String

/-- Embedding of `Interface._validate_inputs` (interface.py lines 60-75):
collect the parameter names of all options bound to a parameter and raise
`IncompetentDeveloperError` when two options map to the same parameter. -/
def Interface._validate_inputs (inputs : List InterfaceOption) :
    Except String Unit :=
  let param_names := inputs.filterMap InterfaceOption.getParameterName
  if param_names.length ≠ param_names.dedup.length then
    Except.error ("Found more than one InterfaceOption mapping to the same "
      ++ "Parameter.")
  else
    Except.ok ()

/-- Attributes held by a fully constructed pyqi `Interface`. -/
structure PyqiInterface where
  CmdInstance : Unit
  usage_examples : List InterfaceUsageExample
  inputs : List InterfaceOption
  outputs : List InterfaceResult

/-- Embedding of `Interface.__init__` (interface.py lines 30-42): require a
command constructor, then run the three validation hooks.  In the pyqi core
`_validate_usage_examples` and `_validate_outputs` are `pass`, so the only
validation with content is `_validate_inputs`; any failure propagates and no
interface object is produced. -/
def Interface.construct? (CommandConstructor : Option Unit)
    (usage_examples : List InterfaceUsageExample)
    (inputs : List InterfaceOption) (outputs : List InterfaceResult) :
    Except String PyqiInterface :=
  match CommandConstructor with
  | Option.none =>
    Except.error "Cannot construct an Interface without a CommandConstructor."
  | Option.some cmd =>
    match Interface._validate_inputs inputs with
    | Except.error e => Except.error e
    | Except.ok _ =>
      Except.ok
        { CmdInstance := cmd, usage_examples := usage_examples,
          inputs := inputs, outputs := outputs }

/-!
Embedding of `src/qcli/interface/cli.py`.
-/

/-- Value of the `CLType` argument: either one of the string type names, one
of the Python type objects `float`/`int`/`str`, or the `None` object, exactly
the shapes admitted by the `CLTypes` set in cli.py line 28. -/
inductive CLTypeVal where
  | s (name : String)
  | pyFloat
  | pyInt
  | pyStr
  | pyNone
deriving DecidableEq, BEq

/-- Embedding of the `CLTypes` set (cli.py lines 28-29). -/
def CLTypes : List CLTypeVal :=
  [CLTypeVal.s "float", CLTypeVal.s "int", CLTypeVal.s "string",
   CLTypeVal.s "existing_filepath", CLTypeVal.pyFloat, CLTypeVal.pyInt,
   CLTypeVal.pyStr, CLTypeVal.pyNone, CLTypeVal.s "new_filepath",
   CLTypeVal.s "new_dirpath", CLTypeVal.s "existing_dirpath"]

/-- Embedding of the `CLActions` set (cli.py line 30). -/
def CLActions : List String := ["store", "store_true", "store_false", "append"]

/-- Rendering of a `CLType` value inside a Python error message. -/
def renderCLType : CLTypeVal → String
  | CLTypeVal.s n => n
  | CLTypeVal.pyFloat => "<type \x27float\x27>"
  | CLTypeVal.pyInt => "<type \x27int\x27>"
  | CLTypeVal.pyStr => "<type \x27str\x27>"
  | CLTypeVal.pyNone => "None"

/-- File system modelled as path-to-contents association list; `new_filepath`
is the only handler in the core that touches it. -/
abbrev FS := List (String × String)

/-- Embedding of the `new_filepath` output handler (cli.py lines 32-37): when
the path exists, raise `IOError` before any write (an `Except.error` performs
no file-system change); otherwise open for writing, creating the file with
the given data. -/
def new_filepath (data : String) (path : String) (fs : FS) : Except String FS :=
  if (fs.lookup path).isSome then
    Except.error ("Output path " ++ path ++ " already exists.")
  else
    Except.ok (alistSet fs path data)

/-- Embedding of the qcli `OutputHandler` record (cli.py lines 39-49); the
stored callable is opaque to the core and modelled by an identifier, so that
dispatch can be observed as a list of calls. -/
structure OutputHandler where
  OptionName : Option String
  Function : String
deriving DecidableEq

/-- Embedding of `CLOption` (cli.py lines 51-68): a parameter augmented with
command-line projection data.  The `Parameter` base class attributes (`Type`,
`Help`, `Name`, `Required`, `Default`, `DefaultDescription`) are stored
alongside the CLI-specific ones, as `CLOption.__init__` does. -/
structure CLOption where
  Type_ : String
  Help : String
  Name : String
  LongName : String
  CLType : CLTypeVal
  CLAction : Option String
  Required : Bool
  Default : PyVal
  DefaultDescription : Option String
  ShortName : Option String
  ResultName : Option String
deriving DecidableEq

/-- Embedding of `CLOption.__str__` (cli.py lines 70-74). -/
def CLOption.pyStr (o : CLOption) : String :=
  match o.ShortName with
  | Option.none => "--" ++ o.LongName
  | Option.some s => "-" ++ s ++ "/--" ++ o.LongName

/-- Embedding of `CLOption.fromParameter` (cli.py lines 103-117): copy the
parameter fields and attach the conversion data. -/
def CLOption.fromParameter (Type_ Help Name : String) (Required : Bool)
    (Default : PyVal) (DefaultDescription : Option String) (LongName : String)
    (CLType : CLTypeVal) (CLAction : Option String) (ShortName : Option String) :
    CLOption :=
  { Type_ := Type_, Help := Help, Name := Name, LongName := LongName,
    CLType := CLType, CLAction := CLAction, Required := Required,
    Default := Default, DefaultDescription := DefaultDescription,
    ShortName := ShortName, ResultName := Option.none }

/-- Embedding of a qcli `UsageExample` (cli.py lines 119-124). -/
structure UsageExample where
  ShortDesc : String
  LongDesc : String
  Ex : String
deriving DecidableEq

/-- Embedding of `ParameterConversion` attributes (cli.py lines 126-139).
`InHandler` is a genuine value transform applied by `_input_handler`. -/
structure ParameterConversion where
  ShortName : Option String
  LongName : String
  CLType : CLTypeVal
  CLAction : Option String
  InHandler : Option (PyVal → PyVal)

/-- Embedding of `ParameterConversion.__init__` (cli.py lines 128-139):
reject a `CLType` outside `CLTypes`, and a non-`None` `CLAction` outside
`CLActions`; otherwise store the rule. -/
def ParameterConversion.mk? (LongName : String) (CLType : CLTypeVal)
    (CLAction : Option String) (InHandler : Option (PyVal → PyVal))
    (ShortName : Option String) : Except String ParameterConversion :=
  if !(CLTypes.contains CLType) then
    Except.error ("Invalid CLType specified: " ++ renderCLType CLType)
  else
    match CLAction with
    | Option.some a =>
      if !(CLActions.contains a) then
        Except.error ("Invalid CLAction specified: " ++ a)
      else
        Except.ok
          { ShortName := ShortName, LongName := LongName, CLType := CLType,
            CLAction := Option.some a, InHandler := InHandler }
    | Option.none =>
      Except.ok
        { ShortName := ShortName, LongName := LongName, CLType := CLType,
          CLAction := Option.none, InHandler := InHandler }

/-!
Model of the external option-parsing library (optparse).  The spec places the
terminal parsing library out of scope, so only the behaviour `_input_handler`
relies on is modelled: every option produced by `CLOption.getOptparseOption`
uses the default `store` action (the source never forwards `CLAction` to
`make_option`), so each recognised flag consumes the following token as its
string value; unrecognised flags and flags missing their argument are usage
errors; every other token is collected as a positional argument.  Parsed
values start from the per-option parser default: `None` for required options
(whose `getOptparseOption` passes no default) and the declared `Default`
otherwise, keyed by the optparse `dest` derived from the long name.
-/

/-- Parse-relevant projection of `CLOption.getOptparseOption`
(cli.py lines 76-101). -/
structure OptSpec where
  dest : String
  longName : String
  shortName : Option String
  default : PyVal
deriving DecidableEq

/-- Build the parser option for a `CLOption`: required options get parser
default `None`, optional ones their declared default. -/
def CLOption.toOptSpec (o : CLOption) : OptSpec :=
  { dest := dashToUnderscore o.LongName, longName := o.LongName,
    shortName := o.ShortName,
    default := if o.Required then PyVal.none else o.Default }

/-- Token prefix test on the character list of a string. -/
def strHasPre (pre s : String) : Bool := pre.data.isPrefixOf s.data

/-- Drop a number of leading characters of a string. -/
def strDrop (s : String) (n : Nat) : String := String.mk (s.data.drop n)

/-- Classify one command-line token: `none` for a positional token, otherwise
the lookup result for the named flag. -/
def optTokenLookup (specs : List OptSpec) (t : String) :
    Option (Except String OptSpec) :=
  if strHasPre "--" t then
    Option.some
      (match specs.find? (fun o => o.longName == strDrop t 2) with
       | Option.some o => Except.ok o
       | Option.none => Except.error ("no such option: " ++ t))
  else if strHasPre "-" t && t ≠ "-" then
    Option.some
      (match specs.find? (fun o => o.shortName == Option.some (strDrop t 1)) with
       | Option.some o => Except.ok o
       | Option.none => Except.error ("no such option: " ++ t))
  else
    Option.none

/-- Main loop of the optparse model: consume tokens, assigning option values
into the destination dictionary and accumulating positional arguments. -/
def parseLoop (specs : List OptSpec) : List String → PyDict → List String →
    Except String (PyDict × List String)
  | [], m, pos => Except.ok (m, pos.reverse)
  | [t], m, pos =>
    match optTokenLookup specs t with
    | Option.none => Except.ok (m, (t :: pos).reverse)
    | Option.some (Except.error e) => Except.error e
    | Option.some (Except.ok _) => Except.error (t ++ " option requires an argument")
  | t :: v :: rest, m, pos =>
    match optTokenLookup specs t with
    | Option.none => parseLoop specs (v :: rest) m (t :: pos)
    | Option.some (Except.error e) => Except.error e
    | Option.some (Except.ok o) =>
      parseLoop specs rest (alistSet m o.dest (PyVal.str v)) pos

/-- Initial parsed-value dictionary: every declared option at its parser
default. -/
def initDict (specs : List OptSpec) : PyDict :=
  specs.map (fun o => (o.dest, o.default))

/-- Model of `parser.parse_args(in_)`. -/
def parseArgs (specs : List OptSpec) (argv : List String) :
    Except String (PyDict × List String) :=
  parseLoop specs argv (initDict specs) []

/-- Static configuration of a `CLInterface` instance: the class attributes
(cli.py lines 143-146), the data collected by `__init__` (options, usage
examples, conversion registry, output map) and the owned command instance,
modelled by its long description and its callable behaviour. -/
structure CLIConfig where
  HelpOnNoArguments : Bool
  DisallowPositionalArguments : Bool
  Options : List CLOption
  UsageExamples : List UsageExample
  ParameterConversionInfo : List (String × ParameterConversion)
  LongDescription : String
  cmd : PyDict → PyDict
  outputMap : List (String × OutputHandler)

/-- Class attribute `OptionalInputLine` (cli.py line 145). -/
def CLInterface.OptionalInputLine : String :=
  "[] indicates optional input (order unimportant)"

/-- Class attribute `RequiredInputLine` (cli.py line 146). -/
def CLInterface.RequiredInputLine : String :=
  "\x7b\x7d indicates required input (order unimportant)"

/-- Formatting of one usage example inside `_build_usage_lines`
(cli.py lines 274-285). -/
def formatUsageExample (ue : UsageExample) : String :=
  let short_description := pyStripWs (pyStripChar ':' ue.ShortDesc)
  let long_description := pyStripWs (pyStripChar ':' ue.LongDesc)
  let ex := pyStripWs ue.Ex
  if short_description ≠ "" then
    short_description ++ ": " ++ long_description ++ "\n " ++ ex
  else
    long_description ++ "\n " ++ ex

/-- Embedding of `CLInterface._build_usage_lines` (cli.py lines 267-301). -/
def CLInterface._build_usage_lines (cfg : CLIConfig)
    (required_options : List CLOption) : String :=
  let line1 := "usage: %prog [options] " ++
    ("\x7b" ++ joinSep " "
      (required_options.map (fun rp => rp.pyStr ++ " " ++ pyUpper rp.Name))
     ++ "\x7d")
  let formatted_usage_examples :=
    joinSep "\n\n" (cfg.UsageExamples.map formatUsageExample)
  joinSep "\n"
    [line1, "", CLInterface.OptionalInputLine, CLInterface.RequiredInputLine,
     "", cfg.LongDescription, "", "Example usage: ",
     "Print help message and exit", " %prog -h\n", formatted_usage_examples]

/-- Required options of the interface, in declaration order
(cli.py line 208). -/
def CLInterface.requiredOpts (cfg : CLIConfig) : List CLOption :=
  cfg.Options.filter (fun o => o.Required)

/-- Optional options of the interface (cli.py line 209). -/
def CLInterface.optionalOpts (cfg : CLIConfig) : List CLOption :=
  cfg.Options.filter (fun o => !o.Required)

/-- Parser options in the order they are added (required group first,
cli.py lines 224-236). -/
def CLInterface.optSpecs (cfg : CLIConfig) : List OptSpec :=
  (CLInterface.requiredOpts cfg ++ CLInterface.optionalOpts cfg).map
    CLOption.toOptSpec

/-- Required-option enforcement (cli.py lines 248-254): the first required
option whose parsed value is still `None`, identified by its optparse
`dest`. -/
def requiredOmissionCheck (reqOpts : List CLOption) (m : PyDict) :
    Option String :=
  (reqOpts.map (fun o => dashToUnderscore o.LongName)).find?
    (fun d => decide (m.lookup d = Option.some PyVal.none))

/-- Outcome of `_input_handler`: help printed and process exit, a usage error
through `parser.error` (process exit status 2), an uncaught `KeyError` from
the input-transform loop, or the parsed dictionary handed to the command. -/
inductive InputResult where
  | helpExit (printed : String) (code : Int)
  | usageError (msg : String) (code : Int)
  | keyError (key : String)
  | parsed (m : PyDict)
deriving DecidableEq

/-- Input-transform loop of `_input_handler` (cli.py lines 258-264): apply
each registered `InHandler` to the stored value of its long name, mutating
`self.BelovedFunctionality` in place; a missing key raises `KeyError`,
leaving the partially transformed dictionary behind.  Returns the outcome
together with the final dictionary held by the instance. -/
def applyInHandlers : List (String × ParameterConversion) → PyDict →
    InputResult × PyDict
  | [], m => (InputResult.parsed m, m)
  | (_, v) :: rest, m =>
    match v.InHandler with
    | Option.none => applyInHandlers rest m
    | Option.some f =>
      match m.lookup v.LongName with
      | Option.none => (InputResult.keyError v.LongName, m)
      | Option.some value => applyInHandlers rest (alistSet m v.LongName (f value))

/-- Stage of `_input_handler` after a successful parse and positional check
(cli.py lines 248-265): enforce required options, then store the parsed
dictionary on the instance and run the input transforms.  The second
component is `some` exactly when `self.BelovedFunctionality` was assigned. -/
def CLInterface.afterParse (cfg : CLIConfig) (m : PyDict) :
    InputResult × Option PyDict :=
  match requiredOmissionCheck (CLInterface.requiredOpts cfg) m with
  | Option.some d =>
    (InputResult.usageError ("Required option --" ++ d ++ " omitted.") 2,
     Option.none)
  | Option.none =>
    let r := applyInHandlers cfg.ParameterConversionInfo m
    (r.1, Option.some r.2)

/-- Embedding of `CLInterface._input_handler` (cli.py lines 206-265),
returning the outcome and, when the parse reached the assignment on line 257,
the dictionary stored on the instance.  `parser.print_usage` followed by
`parser.exit(-1)` is the help outcome; `parser.error` exits with status 2. -/
def CLInterface.inputHandlerCore (cfg : CLIConfig) (in_ : List String) :
    InputResult × Option PyDict :=
  let usage := CLInterface._build_usage_lines cfg (CLInterface.requiredOpts cfg)
  if cfg.HelpOnNoArguments && in_.isEmpty then
    (InputResult.helpExit usage (-1), Option.none)
  else
    match parseArgs (CLInterface.optSpecs cfg) in_ with
    | Except.error e => (InputResult.usageError e 2, Option.none)
    | Except.ok (m, args) =>
      match args with
      | a :: _ =>
        if cfg.DisallowPositionalArguments then
          (InputResult.usageError
            ("Positional argument detected: " ++ a ++ "\n"
             ++ " Be sure all parameters are identified by their option name.\n"
             ++ " (e.g.: include the \x27-i\x27 in \x27-i INPUT_DIR\x27)") 2,
           Option.none)
        else
          CLInterface.afterParse cfg m
      | [] => CLInterface.afterParse cfg m

/-- Record of one output-handler invocation performed by `_output_handler`. -/
structure HandlerCall where
  fn : String
  key : String
  value : PyVal
  optValue : Option PyVal
deriving DecidableEq

/-- Embedding of `CLInterface._output_handler` (cli.py lines 303-314):
iterate over the output map; a result key absent from the command results
raises `IncompetentDeveloperError`, stopping the iteration; otherwise the
handler is called with the key and value, plus the stored option value when
the handler names an option (a missing option value raises `KeyError`).
Returns the calls performed, and the error message of the exception that
stopped the loop, if any. -/
def CLInterface._output_handler : List (String × OutputHandler) → PyDict →
    PyDict → List HandlerCall × Option String
  | [], _, _ => ([], Option.none)
  | (k, handler) :: rest, beloved, results =>
    match results.lookup k with
    | Option.none =>
      ([], Option.some ("Did not find the expected output \x27" ++ k
        ++ "\x27 in results."))
    | Option.some v =>
      match handler.OptionName with
      | Option.none =>
        let r := CLInterface._output_handler rest beloved results
        ({ fn := handler.Function, key := k, value := v,
           optValue := Option.none } :: r.1, r.2)
      | Option.some optName =>
        match beloved.lookup optName with
        | Option.none => ([], Option.some ("KeyError: " ++ optName))
        | Option.some ov =>
          let r := CLInterface._output_handler rest beloved results
          ({ fn := handler.Function, key := k, value := v,
             optValue := Option.some ov } :: r.1, r.2)

/-- Observable outcome of one full `Interface.__call__` invocation. -/
inductive CallOutcome where
  | helpExit (printed : String) (code : Int)
  | usageError (msg : String) (code : Int)
  | crash (msg : String)
  | done (calls : List HandlerCall)
  | configError (calls : List HandlerCall) (msg : String)
deriving DecidableEq

/-- Result of one invocation: the outcome, the `BelovedFunctionality`
dictionary held by the instance afterwards, and whether the command instance
was invoked. -/
structure CallResult where
  outcome : CallOutcome
  state : PyDict
  commandInvoked : Bool
deriving DecidableEq

/-- Embedding of the invocation pipeline `Interface.__call__`
(pyqi interface.py lines 44-47, inherited by `CLInterface`):
`_the_in_validator` (trivial here, the input is a list by construction), then
`_input_handler`, then the command call on the parsed dictionary, then
`_output_handler` reading `self.BelovedFunctionality`.  `st` is the
dictionary held by the instance before the call (`{}` right after
`__init__`, cli.py line 149). -/
def CLInterface.call (cfg : CLIConfig) (st : PyDict) (in_ : List String) :
    CallResult :=
  match CLInterface.inputHandlerCore cfg in_ with
  | (InputResult.parsed m, upd) =>
    let st2 := upd.getD st
    let results := cfg.cmd m
    let r := CLInterface._output_handler cfg.outputMap st2 results
    match r.2 with
    | Option.none => { outcome := CallOutcome.done r.1, state := st2,
                       commandInvoked := true }
    | Option.some e => { outcome := CallOutcome.configError r.1 e,
                         state := st2, commandInvoked := true }
  | (InputResult.helpExit p c, upd) =>
    { outcome := CallOutcome.helpExit p c, state := upd.getD st,
      commandInvoked := false }
  | (InputResult.usageError msg c, upd) =>
    { outcome := CallOutcome.usageError msg c, state := upd.getD st,
      commandInvoked := false }
  | (InputResult.keyError k, upd) =>
    { outcome := CallOutcome.crash ("KeyError: " ++ k), state := upd.getD st,
      commandInvoked := false }

/-!
Spec-side renderings of the usage text, for comparison with
`CLInterface._build_usage_lines`.
-/

/-- Usage text as described verbatim by the specification: the first line
listing the program name with the required options rendered as
`flag VALUE` tokens inside braces, then the fixed legend lines, then the
command long description, then every usage example rendered as
`ShortDesc: LongDesc` followed by the indented example invocation, examples
separated by blank lines. -/
def claimedUsageText (cfg : CLIConfig) (required_options : List CLOption) :
    String :=
  ("usage: %prog [options] " ++
    ("\x7b" ++ joinSep " "
      (required_options.map (fun rp => rp.pyStr ++ " " ++ pyUpper rp.Name))
     ++ "\x7d"))
  ++ "\n" ++ "\n" ++ CLInterface.OptionalInputLine
  ++ "\n" ++ CLInterface.RequiredInputLine
  ++ "\n" ++ "\n" ++ cfg.LongDescription
  ++ "\n" ++ "\n" ++ joinSep "\n\n"
       (cfg.UsageExamples.map
         (fun ue => ue.ShortDesc ++ ": " ++ ue.LongDesc ++ "\n " ++ ue.Ex))

/-- Usage text as described by the amended claim: as the original claim, but
the descriptions and the example invocation are stripped of surrounding
colons and whitespace, an example whose stripped short description is empty
is rendered without the `ShortDesc: ` part, and a fixed built-in block
presenting the help invocation sits between the long description and the
usage examples. -/
def amendedUsageText (cfg : CLIConfig) (required_options : List CLOption) :
    String :=
  ("usage: %prog [options] " ++
    ("\x7b" ++ joinSep " "
      (required_options.map (fun rp => rp.pyStr ++ " " ++ pyUpper rp.Name))
     ++ "\x7d"))
  ++ "\n" ++ "\n" ++ CLInterface.OptionalInputLine
  ++ "\n" ++ CLInterface.RequiredInputLine
  ++ "\n" ++ "\n" ++ cfg.LongDescription
  ++ "\n" ++ "\n" ++ "Example usage: "
  ++ "\n" ++ "Print help message and exit"
  ++ "\n" ++ " %prog -h\n"
  ++ "\n" ++ joinSep "\n\n" (cfg.UsageExamples.map formatUsageExample)

/-!
Concrete instances used by the witnesses and counterexamples.
-/

/-- Concrete required option `--input-path`. -/
def wOptInputPath : CLOption :=
  { Type_ := "str", Help := "the input filepath", Name := "input_path",
    LongName := "input-path", CLType := CLTypeVal.s "existing_filepath",
    CLAction := Option.some "store", Required := true, Default := PyVal.none,
    DefaultDescription := Option.none, ShortName := Option.some "i",
    ResultName := Option.none }

/-- Concrete optional option `--verbose`. -/
def wOptVerbose : CLOption :=
  { Type_ := "bool", Help := "print information during execution",
    Name := "verbose", LongName := "verbose", CLType := CLTypeVal.pyNone,
    CLAction := Option.some "store_true", Required := false,
    Default := PyVal.none, DefaultDescription := Option.none,
    ShortName := Option.some "v", ResultName := Option.none }

/-- Concrete interface configuration with one required and one optional
option, one usage example and no output handlers. -/
def wcfgBase : CLIConfig :=
  { HelpOnNoArguments := true, DisallowPositionalArguments := true,
    Options := [wOptInputPath, wOptVerbose],
    UsageExamples := [{ ShortDesc := "Example", LongDesc := "Run the command",
                        Ex := " app -i in.txt" }],
    ParameterConversionInfo := [],
    LongDescription := "A test command.",
    cmd := fun _ => [], outputMap := [] }

/-- Parsed dictionary produced by `parseArgs` on `["--verbose", "1"]` for
`wcfgBase`: the required option is still unset. -/
def wDictVerboseOnly : PyDict :=
  [("input_path", PyVal.none), ("verbose", PyVal.str "1")]

/-- Concrete parameter for the pyqi witnesses: optional, with a non-`None`
default. -/
def wParamDefaulted : PyqiParameter :=
  { Name := "num_iters", Description := "number of iterations",
    Required := true, Default := PyVal.int 10,
    DefaultDescription := Option.some "10" }

/-- Concrete parameter for the inheritance witness: optional, no default. -/
def wParamOptional : PyqiParameter :=
  { Name := "input_path", Description := "the input filepath",
    Required := false, Default := PyVal.none,
    DefaultDescription := Option.some "no default" }

/-- Option produced from `wParamOptional` with a `Required=True` override. -/
def wOptFromOptional : InterfaceOption :=
  { Parameter := Option.some wParamOptional, Name := "input-path",
    Help := "the input filepath", Required := true, Default := PyVal.none,
    DefaultDescription := Option.some "no default", InputType := Option.none,
    InputAction := Option.none, InputHandler := Option.none,
    ShortName := Option.none }

/-- Two interface options bound to the same parameter name, for the
duplicate-binding witness. -/
def wDupOptA : InterfaceOption :=
  { Parameter := Option.some wParamOptional, Name := "input-path",
    Help := "the input filepath", Required := false, Default := PyVal.none,
    DefaultDescription := Option.none, InputType := Option.none,
    InputAction := Option.none, InputHandler := Option.none,
    ShortName := Option.none }

/-- Second option bound to the same parameter name as `wDupOptA`. -/
def wDupOptB : InterfaceOption :=
  { Parameter := Option.some wParamOptional, Name := "data",
    Help := "the same parameter again", Required := false,
    Default := PyVal.none, DefaultDescription := Option.none,
    InputType := Option.none, InputAction := Option.none,
    InputHandler := Option.none, ShortName := Option.none }

/-- Concrete output map for the dispatch witness. -/
def wOutputMap : List (String × OutputHandler) :=
  [("result", { OptionName := Option.some "output_fp", Function := "write_file" }),
   ("stats", { OptionName := Option.none, Function := "print_stats" })]

/-- Concrete stored option values for the dispatch witness. -/
def wBeloved : PyDict := [("output_fp", PyVal.str "out.txt")]

/-- Concrete command results for the dispatch witness; the key `"extra"` has
no registered handler. -/
def wResults : PyDict :=
  [("result", PyVal.str "DATA"), ("stats", PyVal.int 3),
   ("extra", PyVal.str "ignored")]

/-!
Helper lemmas.
-/

/-- Looking up the assigned key returns the assigned value. -/
theorem alistSet_lookup_self {β : Type} (m : List (String × β)) (k : String)
    (v : β) : (alistSet m k v).lookup k = Option.some v := by
  induction m with
  | nil => simp [alistSet, List.lookup]
  | cons hd t ih =>
    obtain ⟨k2, v2⟩ := hd
    by_cases hk : k2 = k
    · simp [alistSet, hk, List.lookup]
    · simp only [alistSet, if_neg hk, List.lookup]
      have : (k == k2) = false := by
        exact beq_eq_false_iff_ne.mpr (fun he => hk he.symm)
      simp [this, ih]

/-- Looking up any other key is unchanged by an assignment. -/
theorem alistSet_lookup_ne {β : Type} (m : List (String × β)) (k q : String)
    (v : β) (h : q ≠ k) : (alistSet m k v).lookup q = m.lookup q := by
  have hqk : (q == k) = false := beq_eq_false_iff_ne.mpr h
  induction m with
  | nil => simp [alistSet, List.lookup, hqk]
  | cons hd t ih =>
    obtain ⟨k2, v2⟩ := hd
    by_cases hk : k2 = k
    · subst hk
      simp [alistSet, List.lookup, hqk]
    · simp only [alistSet, if_neg hk, List.lookup]
      cases hq2 : (q == k2) <;> simp [hq2, ih]

/-- Field content of a successfully constructed `InterfaceOption`, and the
fact that the required-with-default check was passed. -/
theorem InterfaceOption.finish_ok (P : Option PyqiParameter)
    (ITy IAc IHa SN : Option String) (nm hp : String) (rq : Bool) (df : PyVal)
    (dd : Option String) (cd : Bool) (o : InterfaceOption)
    (h : InterfaceOption.finish P ITy IAc IHa SN nm hp rq df dd cd
        = Except.ok o) :
    o = { Parameter := P, Name := (if cd then underscoreToDash nm else nm),
          Help := hp, Required := rq, Default := df, DefaultDescription := dd,
          InputType := ITy, InputAction := IAc, InputHandler := IHa,
          ShortName := SN } ∧ ¬(rq = true ∧ df ≠ PyVal.none) := by
  unfold InterfaceOption.finish at h
  by_cases hc : rq ∧ df ≠ PyVal.none
  · rw [if_pos hc] at h
    exact absurd h (by simp)
  · rw [if_neg hc] at h
    refine ⟨?_, fun hcc => hc ⟨hcc.1, hcc.2⟩⟩
    exact (Except.ok.injEq _ _ ▸ congrArg id h).symm ▸ rfl

/-- Failure of `InterfaceOption.finish` when the merged option is required
and carries a non-`None` default. -/
theorem InterfaceOption.finish_err (P : Option PyqiParameter)
    (ITy IAc IHa SN : Option String) (nm hp : String) (rq : Bool) (df : PyVal)
    (dd : Option String) (cd : Bool) (h1 : rq = true) (h2 : df ≠ PyVal.none) :
    exceptIsOk (InterfaceOption.finish P ITy IAc IHa SN nm hp rq df dd cd)
      = false := by
  unfold InterfaceOption.finish
  rw [if_pos ⟨h1, h2⟩]
  rfl

/-- C2: for every construction of an option, standalone or derived from a
parameter, a resulting option that is required with a non-null default makes
construction fail with `IncompetentDeveloperError`, and no successfully
constructed option is ever both required and defaulted. -/
theorem C2_required_never_defaulted (Parameter : Option PyqiParameter)
    (InputType InputAction InputHandler ShortName Name : Option String)
    (Required : Bool) (Help : Option String) (Default : PyVal)
    (DefaultDescription : Option String) (cd : Bool) :
    (mergedRequired Parameter Required = true →
      mergedDefault Parameter Default ≠ PyVal.none →
      exceptIsOk (InterfaceOption.mk? Parameter InputType InputAction
        InputHandler ShortName Name Required Help Default DefaultDescription
        cd) = false)
    ∧ (∀ o : InterfaceOption,
        InterfaceOption.mk? Parameter InputType InputAction InputHandler
          ShortName Name Required Help Default DefaultDescription cd
          = Except.ok o →
        ¬(o.Required = true ∧ o.Default ≠ PyVal.none)) := by
  cases Parameter with
  | none =>
    cases Name with
    | none => exact ⟨fun _ _ => rfl, fun o h => by cases h⟩
    | some nm =>
      cases Help with
      | none => exact ⟨fun _ _ => rfl, fun o h => by cases h⟩
      | some hp =>
        constructor
        · intro h1 h2
          exact InterfaceOption.finish_err Option.none InputType InputAction
            InputHandler ShortName nm hp _ _ DefaultDescription cd h1 h2
        · intro o h
          obtain ⟨ho, hc⟩ := InterfaceOption.finish_ok Option.none InputType
            InputAction InputHandler ShortName nm hp _ _ DefaultDescription cd
            o h
          subst ho
          exact hc
  | some p =>
    constructor
    · intro h1 h2
      exact InterfaceOption.finish_err (Option.some p) InputType InputAction
        InputHandler ShortName _ _ _ _ _ cd h1 h2
    · intro o h
      obtain ⟨ho, hc⟩ := InterfaceOption.finish_ok (Option.some p) InputType
        InputAction InputHandler ShortName _ _ _ _ _ cd o h
      subst ho
      exact hc

/-- Witness for C2 at a concrete input: a required parameter with default
`10` makes option construction fail. -/
theorem C2_witness :
    exceptIsOk (InterfaceOption.mk? (Option.some wParamDefaulted) Option.none
      Option.none Option.none Option.none Option.none false Option.none
      PyVal.none Option.none true) = false :=
  (C2_required_never_defaulted (Option.some wParamDefaulted) Option.none
    Option.none Option.none Option.none Option.none false Option.none
    PyVal.none Option.none true).1 rfl (by decide)

/-- C3: an option built from a parameter merges requiredness asymmetrically
(a required parameter always wins; an optional parameter is promoted by a
required override; two optionals stay optional) and inherits help, default
and default description from the parameter unless explicitly overridden. -/
theorem C3_parameter_inheritance (p : PyqiParameter)
    (InputType InputAction InputHandler ShortName Name : Option String)
    (Required : Bool) (Help : Option String) (Default : PyVal)
    (DefaultDescription : Option String) (cd : Bool) (o : InterfaceOption)
    (h : InterfaceOption.mk? (Option.some p) InputType InputAction
        InputHandler ShortName Name Required Help Default DefaultDescription
        cd = Except.ok o) :
    (p.Required = true → o.Required = true)
    ∧ (p.Required = false → Required = true → o.Required = true)
    ∧ (p.Required = false → Required = false → o.Required = false)
    ∧ o.Help = Help.getD p.Description
    ∧ o.Default = mergedDefault (Option.some p) Default
    ∧ o.DefaultDescription = DefaultDescription.or p.DefaultDescription := by
  obtain ⟨ho, _⟩ := InterfaceOption.finish_ok (Option.some p) InputType
    InputAction InputHandler ShortName _ _ _ _ _ cd o h
  subst ho
  refine ⟨?_, ?_, ?_, rfl, rfl, rfl⟩
  · intro hp
    simp [mergedRequired, hp]
  · intro hp hr
    simp [mergedRequired, hp, hr]
  · intro hp hr
    simp [mergedRequired, hp, hr]

/-- Witness for C3 at a concrete input: an optional parameter with a
`Required=True` override produces a required option inheriting the help
text. -/
theorem C3_witness :
    wOptFromOptional.Required = true
    ∧ wOptFromOptional.Help
        = (Option.none : Option String).getD wParamOptional.Description := by
  have h := C3_parameter_inheritance wParamOptional Option.none Option.none
    Option.none Option.none Option.none true Option.none PyVal.none
    Option.none true wOptFromOptional rfl
  exact ⟨h.2.1 rfl rfl, h.2.2.2.1⟩

/-- C4: an input-option list containing two options bound to the same
parameter name makes `Interface` construction fail, leaving no interface
object behind. -/
theorem C4_duplicate_parameter_binding (CommandConstructor : Option Unit)
    (usage_examples : List InterfaceUsageExample)
    (outputs : List InterfaceResult) (l1 l2 l3 : List InterfaceOption)
    (o1 o2 : InterfaceOption) (n : String)
    (h1 : o1.getParameterName = Option.some n)
    (h2 : o2.getParameterName = Option.some n) :
    exceptIsOk (Interface.construct? CommandConstructor usage_examples
      (l1 ++ o1 :: l2 ++ o2 :: l3) outputs) = false := by
  cases CommandConstructor with
  | none => rfl
  | some cmd =>
    have hP : (l1 ++ o1 :: l2 ++ o2 :: l3).filterMap
        InterfaceOption.getParameterName
        = l1.filterMap InterfaceOption.getParameterName
          ++ n :: (l2.filterMap InterfaceOption.getParameterName
          ++ n :: l3.filterMap InterfaceOption.getParameterName) := by
      simp [List.filterMap_append, h1, h2]
    have hdup : ¬ ((l1 ++ o1 :: l2 ++ o2 :: l3).filterMap
        InterfaceOption.getParameterName).Nodup := by
      rw [hP]
      intro hnd
      have h3 := (List.nodup_append.mp hnd).2.1
      have h4 := (List.nodup_cons.mp h3).1
      exact h4 (List.mem_append.mpr (Or.inr (List.mem_cons_self n _)))
    have hlen : ((l1 ++ o1 :: l2 ++ o2 :: l3).filterMap
          InterfaceOption.getParameterName).length
        ≠ ((l1 ++ o1 :: l2 ++ o2 :: l3).filterMap
          InterfaceOption.getParameterName).dedup.length := by
      intro he
      have heq := (List.dedup_sublist _).eq_of_length he.symm
      exact hdup (heq ▸ List.nodup_dedup _)
    unfold Interface.construct? Interface._validate_inputs
    rw [if_pos hlen]
    rfl

/-- Witness for C4 at a concrete input: two options bound to the parameter
`input_path` abort interface construction. -/
theorem C4_witness :
    exceptIsOk (Interface.construct? (Option.some ()) [] [wDupOptA, wDupOptB]
      []) = false :=
  C4_duplicate_parameter_binding (Option.some ()) [] [] [] [] [] wDupOptA
    wDupOptB "input_path" rfl rfl

/-- C9: the `new_filepath` output handler refuses to write when the target
path exists, raising before any write so the existing file is untouched, and
otherwise creates the file with exactly the given data, leaving every other
path unchanged. -/
theorem C9_new_filepath_safety (data path : String) (fs : FS) :
    ((fs.lookup path).isSome = true →
      new_filepath data path fs
          = Except.error ("Output path " ++ path ++ " already exists.")
        ∧ ∀ fsOut : FS, new_filepath data path fs ≠ Except.ok fsOut)
    ∧ ((fs.lookup path).isSome = false →
      ∃ fsOut : FS, new_filepath data path fs = Except.ok fsOut
        ∧ fsOut.lookup path = Option.some data
        ∧ ∀ q : String, q ≠ path → fsOut.lookup q = fs.lookup q) := by
  constructor
  · intro h
    refine ⟨by simp [new_filepath, h], fun fsOut hc => ?_⟩
    simp [new_filepath, h] at hc
  · intro h
    refine ⟨alistSet fs path data, by simp [new_filepath, h], ?_, ?_⟩
    · exact alistSet_lookup_self fs path data
    · intro q hq
      exact alistSet_lookup_ne fs path q data hq

/-- Witness for C9 at concrete inputs: writing to an existing path fails,
writing to a fresh path creates it. -/
theorem C9_witness :
    new_filepath "data" "a.txt" [("a.txt", "old")]
        = Except.error ("Output path " ++ "a.txt" ++ " already exists.")
    ∧ ∃ fsOut : FS, new_filepath "hi" "b.txt" [("a.txt", "old")]
          = Except.ok fsOut
        ∧ fsOut.lookup "b.txt" = Option.some "hi"
        ∧ ∀ q : String, q ≠ "b.txt" →
            fsOut.lookup q = ([("a.txt", "old")] : FS).lookup q :=
  ⟨((C9_new_filepath_safety "data" "a.txt" [("a.txt", "old")]).1 rfl).1,
   (C9_new_filepath_safety "hi" "b.txt" [("a.txt", "old")]).2 rfl⟩

/-- C10 counterexample: a conversion rule whose `CLAction` is the `None`
object lies outside the allowed action set `{store, store_true, store_false,
append}`, yet its construction succeeds (`None` is the accepted default),
contradicting the claim that any action outside that set is rejected. -/
theorem C10_counterexample :
    (¬ ∃ a : String, (Option.none : Option String) = Option.some a
        ∧ CLActions.contains a = true)
    ∧ exceptIsOk (ParameterConversion.mk? "input-path" (CLTypeVal.s "string")
        Option.none Option.none Option.none) = true := by
  constructor
  · rintro ⟨a, ha, _⟩
    cases ha
  · rfl

/-- C10 amended: conversion-rule construction succeeds exactly when the
`cli_type` is in the allowed type set and the `cli_action` is either `None`
(the accepted default) or one of `{store, store_true, store_false,
append}`; otherwise it fails with `IncompetentDeveloperError`. -/
theorem C10_amended_conversion_validation (LongName : String)
    (CLType : CLTypeVal) (CLAction : Option String)
    (InHandler : Option (PyVal → PyVal)) (ShortName : Option String) :
    exceptIsOk (ParameterConversion.mk? LongName CLType CLAction InHandler
      ShortName)
      = (CLTypes.contains CLType &&
         (match CLAction with
          | Option.none => true
          | Option.some a => CLActions.contains a)) := by
  unfold ParameterConversion.mk?
  cases h : CLTypes.contains CLType with
  | false => cases CLAction <;> simp [h, exceptIsOk]
  | true =>
    cases CLAction with
    | none => simp [h, exceptIsOk]
    | some a =>
      cases h2 : CLActions.contains a with
      | false =>
        have h3 : ¬ (a ∈ CLActions) := by simpa using h2
        simp [h, h2, h3, exceptIsOk]
      | true =>
        have h3 : a ∈ CLActions := by simpa using h2
        simp [h, h2, h3, exceptIsOk]

/-- C5: with help-on-no-arguments enabled, the empty invocation prints the
usage text and exits with the non-zero status `-1`, before parsing,
validation or the command invocation. -/
theorem C5_help_on_empty (cfg : CLIConfig) (st : PyDict)
    (h : cfg.HelpOnNoArguments = true) :
    CLInterface.call cfg st []
      = { outcome := CallOutcome.helpExit
            (CLInterface._build_usage_lines cfg (CLInterface.requiredOpts cfg))
            (-1),
          state := st, commandInvoked := false }
    ∧ ((-1 : Int) ≠ 0) := by
  constructor
  · unfold CLInterface.call CLInterface.inputHandlerCore
    simp [h]
  · decide

/-- Witness for C5 at a concrete interface configuration. -/
theorem C5_witness :
    CLInterface.call wcfgBase [] []
      = { outcome := CallOutcome.helpExit
            (CLInterface._build_usage_lines wcfgBase
              (CLInterface.requiredOpts wcfgBase)) (-1),
          state := [], commandInvoked := false } :=
  (C5_help_on_empty wcfgBase [] rfl).1

/-- Dispatch stops with the missing-output configuration error when some
registered result key is absent (provided no option-value lookup crashes
first). -/
theorem outputHandler_missing_aux (beloved results : PyDict) :
    ∀ output_map : List (String × OutputHandler),
    (∀ k h oname, (k, h) ∈ output_map → h.OptionName = Option.some oname →
      (beloved.lookup oname).isSome = true) →
    (∃ k h, (k, h) ∈ output_map ∧ results.lookup k = Option.none) →
    ∃ k2, (∃ h2, (k2, h2) ∈ output_map) ∧ results.lookup k2 = Option.none
      ∧ (CLInterface._output_handler output_map beloved results).2
          = Option.some ("Did not find the expected output \x27" ++ k2
              ++ "\x27 in results.") := by
  intro output_map
  induction output_map with
  | nil =>
    intro _ hex
    obtain ⟨k, h, hm, _⟩ := hex
    cases hm
  | cons hd rest ih =>
    obtain ⟨k, hdl⟩ := hd
    intro hbel hex
    cases hres : results.lookup k with
    | none =>
      refine ⟨k, ⟨hdl, List.mem_cons_self _ _⟩, hres, ?_⟩
      simp [CLInterface._output_handler, hres]
    | some v =>
      obtain ⟨k3, h3, hm, hn⟩ := hex
      have hm2 : (k3, h3) ∈ rest := by
        rcases List.mem_cons.mp hm with he | hm2
        · exfalso
          have hk3 : k3 = k := congrArg Prod.fst he
          rw [hk3, hres] at hn
          cases hn
        · exact hm2
      have hbel2 : ∀ k0 h0 oname, (k0, h0) ∈ rest →
          h0.OptionName = Option.some oname →
          (beloved.lookup oname).isSome = true :=
        fun k0 h0 oname hm0 ho => hbel k0 h0 oname
          (List.mem_cons_of_mem _ hm0) ho
      obtain ⟨k2, ⟨h2, hmem⟩, hn2, heq⟩ := ih hbel2 ⟨k3, h3, hm2, hn⟩
      refine ⟨k2, ⟨h2, List.mem_cons_of_mem _ hmem⟩, hn2, ?_⟩
      cases hopt : hdl.OptionName with
      | none => simp [CLInterface._output_handler, hres, hopt, heq]
      | some oname =>
        have hsome := hbel k hdl oname (List.mem_cons_self _ _) hopt
        obtain ⟨ov, hov⟩ := Option.isSome_iff_exists.mp hsome
        simp [CLInterface._output_handler, hres, hopt, hov, heq]

/-- Dispatch with every registered result key present performs exactly one
call per registered handler, in registration order, with the declared option
value attached when the handler names an option. -/
theorem outputHandler_complete_aux (beloved results : PyDict) :
    ∀ output_map : List (String × OutputHandler),
    (∀ k h oname, (k, h) ∈ output_map → h.OptionName = Option.some oname →
      (beloved.lookup oname).isSome = true) →
    (∀ k h, (k, h) ∈ output_map → (results.lookup k).isSome = true) →
    CLInterface._output_handler output_map beloved results
      = (output_map.map (fun kh =>
          { fn := kh.2.Function, key := kh.1,
            value := (results.lookup kh.1).getD PyVal.none,
            optValue := kh.2.OptionName.bind
              (fun on2 => beloved.lookup on2) }),
         Option.none) := by
  intro output_map
  induction output_map with
  | nil => intro _ _; rfl
  | cons hd rest ih =>
    obtain ⟨k, hdl⟩ := hd
    intro hbel hres
    have hk := hres k hdl (List.mem_cons_self _ _)
    obtain ⟨v, hv⟩ := Option.isSome_iff_exists.mp hk
    have ihres := ih
      (fun k0 h0 on0 hm ho => hbel k0 h0 on0 (List.mem_cons_of_mem _ hm) ho)
      (fun k0 h0 hm => hres k0 h0 (List.mem_cons_of_mem _ hm))
    cases hopt : hdl.OptionName with
    | none => simp [CLInterface._output_handler, hv, hopt, ihres]
    | some oname =>
      have hsome := hbel k hdl oname (List.mem_cons_self _ _) hopt
      obtain ⟨ov, hov⟩ := Option.isSome_iff_exists.mp hsome
      simp [CLInterface._output_handler, hv, hopt, hov, ihres]

/-- Dispatch only consults the results at the registered keys: result
mappings agreeing there are dispatched identically, so unregistered result
keys are ignored. -/
theorem outputHandler_respects_aux (beloved : PyDict) :
    ∀ (output_map : List (String × OutputHandler)) (results results2 : PyDict),
    (∀ k h, (k, h) ∈ output_map → results.lookup k = results2.lookup k) →
    CLInterface._output_handler output_map beloved results
      = CLInterface._output_handler output_map beloved results2 := by
  intro output_map
  induction output_map with
  | nil => intro _ _ _; rfl
  | cons hd rest ih =>
    obtain ⟨k, hdl⟩ := hd
    intro r r2 hagree
    have hk : r.lookup k = r2.lookup k := hagree k hdl (List.mem_cons_self _ _)
    have ihr := ih r r2
      (fun k0 h0 hm => hagree k0 h0 (List.mem_cons_of_mem _ hm))
    cases hres : r.lookup k with
    | none =>
      have hres2 : r2.lookup k = Option.none := by rw [← hk, hres]
      simp [CLInterface._output_handler, hres, hres2]
    | some v =>
      have hres2 : r2.lookup k = Option.some v := by rw [← hk, hres]
      cases hopt : hdl.OptionName with
      | none => simp [CLInterface._output_handler, hres, hres2, hopt, ihr]
      | some oname =>
        cases hov : beloved.lookup oname with
        | none => simp [CLInterface._output_handler, hres, hres2, hopt, hov]
        | some ov =>
          simp [CLInterface._output_handler, hres, hres2, hopt, hov, ihr]

/-- C7: during output dispatch, a registered handler whose result key is
absent from the command results raises `IncompetentDeveloperError`; when all
registered keys are present, every handler is called with its key and value,
plus the stored value of its declared option when it names one; and result
keys with no registered handler are ignored. -/
theorem C7_output_dispatch (output_map : List (String × OutputHandler))
    (beloved results : PyDict)
    (hbel : ∀ k h oname, (k, h) ∈ output_map →
      h.OptionName = Option.some oname →
      (beloved.lookup oname).isSome = true) :
    ((∃ k h, (k, h) ∈ output_map ∧ results.lookup k = Option.none) →
      ∃ k2, (∃ h2, (k2, h2) ∈ output_map) ∧ results.lookup k2 = Option.none
        ∧ (CLInterface._output_handler output_map beloved results).2
            = Option.some ("Did not find the expected output \x27" ++ k2
                ++ "\x27 in results."))
    ∧ ((∀ k h, (k, h) ∈ output_map → (results.lookup k).isSome = true) →
      CLInterface._output_handler output_map beloved results
        = (output_map.map (fun kh =>
            { fn := kh.2.Function, key := kh.1,
              value := (results.lookup kh.1).getD PyVal.none,
              optValue := kh.2.OptionName.bind
                (fun on2 => beloved.lookup on2) }),
           Option.none))
    ∧ (∀ results2 : PyDict,
        (∀ k h, (k, h) ∈ output_map → results.lookup k = results2.lookup k) →
        CLInterface._output_handler output_map beloved results
          = CLInterface._output_handler output_map beloved results2) :=
  ⟨outputHandler_missing_aux beloved results output_map hbel,
   outputHandler_complete_aux beloved results output_map hbel,
   outputHandler_respects_aux beloved output_map results⟩

/-- Witness for C7 at concrete inputs: both registered handlers are called
with their values (and the declared option value), while the extra result
key `"extra"` is ignored. -/
theorem C7_witness :
    CLInterface._output_handler wOutputMap wBeloved wResults
      = ([{ fn := "write_file", key := "result", value := PyVal.str "DATA",
            optValue := Option.some (PyVal.str "out.txt") },
          { fn := "print_stats", key := "stats", value := PyVal.int 3,
            optValue := Option.none }], Option.none) := by
  have hbel : ∀ k h oname, (k, h) ∈ wOutputMap →
      h.OptionName = Option.some oname →
      (wBeloved.lookup oname).isSome = true := by
    intro k h oname hm ho
    fin_cases hm
    · simp [wOutputMap] at ho
      subst ho
      decide
    · cases ho
  have hres : ∀ k h, (k, h) ∈ wOutputMap →
      (wResults.lookup k).isSome = true := by
    intro k h hm
    fin_cases hm <;> decide
  have h := (C7_output_dispatch wOutputMap wBeloved wResults hbel).2.1 hres
  rw [h]
  rfl

/-- A `parsed` outcome of the input-transform loop carries exactly the final
dictionary stored on the instance. -/
theorem applyInHandlers_parsed
    (conv : List (String × ParameterConversion)) :
    ∀ m m2 : PyDict, (applyInHandlers conv m).1 = InputResult.parsed m2 →
      (applyInHandlers conv m).2 = m2 := by
  induction conv with
  | nil =>
    intro m m2 h
    simp only [applyInHandlers] at h ⊢
    cases h
    rfl
  | cons hd rest ih =>
    obtain ⟨nm, v⟩ := hd
    intro m m2 h
    cases hih : v.InHandler with
    | none =>
      simp only [applyInHandlers, hih] at h ⊢
      exact ih m m2 h
    | some f =>
      cases hlk : m.lookup v.LongName with
      | none => simp [applyInHandlers, hih, hlk] at h
      | some value =>
        simp only [applyInHandlers, hih, hlk] at h ⊢
        exact ih _ m2 h

/-- A `parsed` outcome of the post-parse stage always comes with the stored
dictionary. -/
theorem afterParse_parsed (cfg : CLIConfig) (m0 m : PyDict)
    (upd : Option PyDict)
    (h : CLInterface.afterParse cfg m0 = (InputResult.parsed m, upd)) :
    upd = Option.some m := by
  unfold CLInterface.afterParse at h
  cases hc : requiredOmissionCheck (CLInterface.requiredOpts cfg) m0 with
  | some d =>
    rw [hc] at h
    cases h
  | none =>
    rw [hc] at h
    simp only [Prod.mk.injEq] at h
    obtain ⟨h1, h2⟩ := h
    rw [← h2, applyInHandlers_parsed _ _ _ h1]

/-- A `parsed` outcome of the whole input handler always comes with the
stored dictionary: `self.BelovedFunctionality` was assigned on the way. -/
theorem inputHandlerCore_parsed_some (cfg : CLIConfig) (argv : List String)
    (m : PyDict) (upd : Option PyDict)
    (h : CLInterface.inputHandlerCore cfg argv = (InputResult.parsed m, upd)) :
    upd = Option.some m := by
  unfold CLInterface.inputHandlerCore at h
  by_cases hh : (cfg.HelpOnNoArguments && argv.isEmpty) = true
  · rw [if_pos hh] at h
    cases h
  · rw [if_neg hh] at h
    cases hp : parseArgs (CLInterface.optSpecs cfg) argv with
    | error e =>
      rw [hp] at h
      cases h
    | ok pr =>
      obtain ⟨m2, args⟩ := pr
      rw [hp] at h
      cases args with
      | nil => exact afterParse_parsed cfg m2 m upd h
      | cons a t =>
        by_cases hd : cfg.DisallowPositionalArguments = true
        · simp only [hd, if_true] at h
          cases h
        · simp only [hd, if_false, Bool.false_eq_true] at h
          exact afterParse_parsed cfg m2 m upd h

/-- C8 counterexample: after one successful invocation starting from the
fresh `BelovedFunctionality = {}` state set by `__init__`, the instance still
holds the parsed-value mapping of that invocation, so mutable state beyond
the immutable configuration is retained between calls. -/
theorem C8_counterexample :
    (CLInterface.call wcfgBase [] ["--input-path", "x.txt"]).state
        = [("input_path", PyVal.str "x.txt"), ("verbose", PyVal.none)]
    ∧ ([("input_path", PyVal.str "x.txt"), ("verbose", PyVal.none)] : PyDict)
        ≠ [] := by
  constructor
  · rfl
  · decide

/-- C8 amended: the parsed-value mapping is stored on the instance and
persists after an invocation, but it is fully overwritten before any use, so
the outcome and command invocation of a call never depend on the state left
by earlier calls, and the state after a call is either untouched (on an
abort before parsing completed) or determined by the configuration and the
arguments alone. -/
theorem C8_amended_fresh_population (cfg : CLIConfig) (s1 s2 : PyDict)
    (argv : List String) :
    (CLInterface.call cfg s1 argv).outcome
        = (CLInterface.call cfg s2 argv).outcome
    ∧ (CLInterface.call cfg s1 argv).commandInvoked
        = (CLInterface.call cfg s2 argv).commandInvoked
    ∧ (((CLInterface.call cfg s1 argv).state = s1
        ∧ (CLInterface.call cfg s2 argv).state = s2)
       ∨ (CLInterface.call cfg s1 argv).state
           = (CLInterface.call cfg s2 argv).state) := by
  cases hcore : CLInterface.inputHandlerCore cfg argv with
  | mk r upd =>
    cases r with
    | parsed m =>
      have hupd := inputHandlerCore_parsed_some cfg argv m upd hcore
      subst hupd
      simp [CLInterface.call, hcore]
    | helpExit p c =>
      cases upd <;> simp [CLInterface.call, hcore]
    | usageError msg c =>
      cases upd <;> simp [CLInterface.call, hcore]
    | keyError k =>
      cases upd <;> simp [CLInterface.call, hcore]

/-- C1: whenever the input handler reaches the required-option check (the
help short-circuit did not fire, parsing succeeded, no stray positional
argument aborted), a required option whose parsed value is still `None`
aborts the invocation through `parser.error` with a message naming the
missing option by its `dest` and the non-zero exit status 2, without
invoking the command; when every required option has a parsed value, the
handler proceeds past this check to the input-transform stage. -/
theorem C1_required_option_enforced (cfg : CLIConfig) (st : PyDict)
    (argv : List String) (m : PyDict) (args : List String)
    (hne : cfg.HelpOnNoArguments = false ∨ argv ≠ [])
    (hparse : parseArgs (CLInterface.optSpecs cfg) argv = Except.ok (m, args))
    (hpos : args = [] ∨ cfg.DisallowPositionalArguments = false) :
    (∀ d : String,
      requiredOmissionCheck (CLInterface.requiredOpts cfg) m = Option.some d →
      (∃ r ∈ CLInterface.requiredOpts cfg,
          dashToUnderscore r.LongName = d
          ∧ m.lookup d = Option.some PyVal.none)
      ∧ CLInterface.call cfg st argv
          = { outcome := CallOutcome.usageError
                ("Required option --" ++ d ++ " omitted.") 2,
              state := st, commandInvoked := false }
      ∧ ((2 : Int) ≠ 0))
    ∧ (requiredOmissionCheck (CLInterface.requiredOpts cfg) m = Option.none →
        CLInterface.inputHandlerCore cfg argv
          = ((applyInHandlers cfg.ParameterConversionInfo m).1,
             Option.some (applyInHandlers cfg.ParameterConversionInfo m).2)) := by
  have hcond : (cfg.HelpOnNoArguments && argv.isEmpty) = false := by
    rcases hne with h | h
    · simp [h]
    · cases argv with
      | nil => exact absurd rfl h
      | cons a t => simp
  have hstep : CLInterface.inputHandlerCore cfg argv
      = CLInterface.afterParse cfg m := by
    unfold CLInterface.inputHandlerCore
    rw [if_neg (by simp [hcond]), hparse]
    rcases hpos with h | h
    · subst h
      rfl
    · cases args with
      | nil => rfl
      | cons a t => simp [h]
  constructor
  · intro d hd
    have hmem := List.mem_of_find?_eq_some hd
    have hpred := List.find?_some hd
    obtain ⟨r, hr, hrd⟩ := List.mem_map.mp hmem
    refine ⟨⟨r, hr, hrd, of_decide_eq_true hpred⟩, ?_, by decide⟩
    have hcall : CLInterface.inputHandlerCore cfg argv
        = (InputResult.usageError ("Required option --" ++ d ++ " omitted.") 2,
           Option.none) := by
      rw [hstep]
      unfold CLInterface.afterParse
      rw [hd]
    simp [CLInterface.call, hcall]
  · intro h0
    rw [hstep]
    unfold CLInterface.afterParse
    rw [h0]

/-- Witness for C1 at a concrete interface: omitting `--input-path` aborts
with the usage error naming it; supplying it proceeds past the check. -/
theorem C1_witness :
    CLInterface.call wcfgBase [] ["--verbose", "1"]
      = { outcome := CallOutcome.usageError
            ("Required option --" ++ "input_path" ++ " omitted.") 2,
          state := [], commandInvoked := false }
    ∧ CLInterface.inputHandlerCore wcfgBase ["--input-path", "x.txt"]
        = ((applyInHandlers wcfgBase.ParameterConversionInfo
              [("input_path", PyVal.str "x.txt"), ("verbose", PyVal.none)]).1,
           Option.some (applyInHandlers wcfgBase.ParameterConversionInfo
              [("input_path", PyVal.str "x.txt"), ("verbose", PyVal.none)]).2) := by
  constructor
  · exact ((C1_required_option_enforced wcfgBase [] ["--verbose", "1"]
      wDictVerboseOnly [] (Or.inr (by decide)) rfl (Or.inl rfl)).1
      "input_path" rfl).2.1
  · exact (C1_required_option_enforced wcfgBase [] ["--input-path", "x.txt"]
      [("input_path", PyVal.str "x.txt"), ("verbose", PyVal.none)] []
      (Or.inr (by decide)) rfl (Or.inl rfl)).2 rfl

/-- C6 counterexample: at a concrete configuration, the text produced by
`_build_usage_lines` is not the concatenation the claim describes — the code
also inserts a fixed `Example usage:` block presenting the built-in help
invocation between the long description and the examples, and strips the
example fields before rendering. -/
theorem C6_counterexample :
    claimedUsageText wcfgBase [] ≠ CLInterface._build_usage_lines wcfgBase []
      := by
  decide

/-- C6 amended: usage-text assembly is a pure function of the configuration
(two calls with identical inputs render byte-identical text), and the text
consists of the first line with the program name and the required options as
`flag VALUE` tokens inside braces, the two legend lines, the command long
description, a fixed built-in block presenting the `-h` help invocation, and
the usage examples — each rendered from its colon- and whitespace-stripped
fields as `ShortDesc: LongDesc` (`LongDesc` alone when the stripped short
description is empty) followed by the indented example invocation — with the
examples separated by blank lines. -/
theorem C6_amended_usage_text (cfg : CLIConfig)
    (required_options : List CLOption) :
    CLInterface._build_usage_lines cfg required_options
      = amendedUsageText cfg required_options := by
  unfold CLInterface._build_usage_lines amendedUsageText
  simp only [joinSep, String.append_assoc, String.empty_append,
    String.append_empty]
